import Mathlib

/-!
Shallow embedding of the `valeur-verte-logements` ETL pipeline.

The embedding covers:
* the rounding used by the pandas/numpy `.round(n)` calls (round half to even),
* the Bronze → Silver DVF cleaning pipeline (`scripts/transform_silver.py`,
  `load_dvf_year_to_df`),
* the Silver → Gold aggregations (`scripts/transform_gold.py`, `agg_dvf`,
  `agg_dpe`, and the left join of `build_gold`),
* the DPE API ingestion loop (`scripts/ingest_dpe_api.py`, `DPEIngestion`).

Dataframes are modelled as a list of typed rows together with the list of
column names present in the frame; numeric columns are modelled as `ℚ`
(the parse of the raw strings into floats is taken as given, so a cell is
`Option ℚ` with `none` standing for NaN).
-/

/-- Rounding to the nearest integer, ties to even: the rounding mode used by
numpy/pandas `.round(0)` on the values appearing in this pipeline. -/
def roundHalfEven (q : ℚ) : ℤ :=
  if q - ⌊q⌋ < 1/2 then ⌊q⌋
  else if 1/2 < q - ⌊q⌋ then ⌊q⌋ + 1
  else if ⌊q⌋ % 2 = 0 then ⌊q⌋ else ⌊q⌋ + 1

/-- `Series.round(0)` as used on `prix_m2_median` and `prix_m2_mean`. -/
def round0 (q : ℚ) : ℚ := (roundHalfEven q : ℚ)

/-- `Series.round(1)` as used on the DPE percentage columns. -/
def round1 (q : ℚ) : ℚ := (roundHalfEven (q * 10) : ℚ) / 10

lemma abs_roundHalfEven_sub (q : ℚ) : |(roundHalfEven q : ℚ) - q| ≤ 1/2 := by
  have h1 : (⌊q⌋ : ℚ) ≤ q := Int.floor_le q
  have h2 : q < ⌊q⌋ + 1 := Int.lt_floor_add_one q
  unfold roundHalfEven
  split_ifs with ha hb hc <;> rw [abs_le] <;> constructor <;> push_cast <;> linarith

lemma abs_round1_sub (q : ℚ) : |round1 q - q| ≤ 1/20 := by
  have h := abs_roundHalfEven_sub (q * 10)
  unfold round1
  have heq : (roundHalfEven (q * 10) : ℚ) / 10 - q
      = ((roundHalfEven (q * 10) : ℚ) - q * 10) / 10 := by ring
  rw [heq, abs_div]
  have h10 : |(10 : ℚ)| = 10 := by norm_num
  rw [h10]
  rw [div_le_iff₀ (by norm_num : (0:ℚ) < 10)]
  linarith

lemma abs_sum_map_round1_sub (l : List ℚ) :
    |(l.map round1).sum - l.sum| ≤ (l.length : ℚ) / 20 := by
  induction l with
  | nil => simp
  | cons a t ih =>
    have ha := abs_round1_sub a
    simp only [List.map_cons, List.sum_cons, List.length_cons]
    calc |round1 a + (t.map round1).sum - (a + t.sum)|
        = |(round1 a - a) + ((t.map round1).sum - t.sum)| := by ring_nf
      _ ≤ |round1 a - a| + |(t.map round1).sum - t.sum| := abs_add _ _
      _ ≤ 1/20 + (t.length : ℚ)/20 := add_le_add ha ih
      _ = ((t.length : ℚ) + 1)/20 := by ring
      _ = (((t.length + 1 : ℕ)) : ℚ)/20 := by push_cast; ring

/-! ## Bronze → Silver DVF transform (`transform_silver.py`, `load_dvf_year_to_df`)

The raw CSV is read with `dtype=str`; `"Valeur fonciere"` and
`"Surface reelle bati"` are converted to floats after the comma/point fix, and
`"Date mutation"` is parsed with `pd.to_datetime(..., errors="coerce")`.  The
embedding takes those parses as given: a numeric cell is `Option ℚ` (`none` for
NaN) and the date cell is `Option (day × month × year)` (`none` when missing or
unparseable, i.e. coerced to NaT). -/

/-- The department scope `DEPARTEMENTS = ["92", "59", "34"]` shared by
`transform_silver.py` and `ingest_dpe_api.py`. -/
def DEPARTEMENTS : List String := ["92", "59", "34"]

/-- One Bronze DVF row restricted to `DVF_COLS`. -/
structure BronzeDvfRow where
  dateMutation : Option (Nat × Nat × Nat)
  valeurFonciere : Option ℚ
  codeDepartement : Option String
  codeCommune : Option String
  typeLocal : Option String
  surfaceReelleBati : Option ℚ
deriving DecidableEq, Repr

/-- A DVF row after `dropna(subset=["Valeur fonciere", "Surface reelle bati"])`
and the `astype(float)` conversions. -/
structure DvfTypedRow where
  dateMutation : Option (Nat × Nat × Nat)
  valeurFonciere : ℚ
  codeDepartement : Option String
  codeCommune : Option String
  typeLocal : Option String
  surfaceReelleBati : ℚ
deriving DecidableEq, Repr

/-- A DVF row once the derived `prix_m2` column has been added. -/
structure DvfPrixRow where
  dateMutation : Option (Nat × Nat × Nat)
  valeurFonciere : ℚ
  codeDepartement : Option String
  codeCommune : Option String
  typeLocal : Option String
  surfaceReelleBati : ℚ
  prix_m2 : ℚ
deriving DecidableEq, Repr

/-- A Silver DVF row: date parsed and kept, `annee`/`trimestre` derived. -/
structure SilverDvfRow where
  valeurFonciere : ℚ
  codeDepartement : Option String
  codeCommune : Option String
  typeLocal : Option String
  surfaceReelleBati : ℚ
  prix_m2 : ℚ
  date_mutation : Nat × Nat × Nat
  annee : Nat
  trimestre : String
deriving DecidableEq, Repr

/-- `df.dropna(subset=["Valeur fonciere", "Surface reelle bati"])` followed by
the float conversions of those two columns. -/
def dvfDropNaTyped (rows : List BronzeDvfRow) : List DvfTypedRow :=
  rows.filterMap fun r =>
    match r.valeurFonciere, r.surfaceReelleBati with
    | some v, some s =>
        some { dateMutation := r.dateMutation, valeurFonciere := v,
               codeDepartement := r.codeDepartement, codeCommune := r.codeCommune,
               typeLocal := r.typeLocal, surfaceReelleBati := s }
    | _, _ => none

/-- `df = df[df["Surface reelle bati"] > 0]` — the guard the script runs
("Eviter division par 0") before computing `prix_m2`. -/
def dvfFilterSurface (rows : List DvfTypedRow) : List DvfTypedRow :=
  rows.filter fun r => decide (0 < r.surfaceReelleBati)

/-- Division with the zero-denominator branch made explicit. -/
def safeDiv (a b : ℚ) : Option ℚ := if b = 0 then none else some (a / b)

/-- Attach a computed `prix_m2` value to a typed DVF row. -/
def withPrix (r : DvfTypedRow) (p : ℚ) : DvfPrixRow :=
  { dateMutation := r.dateMutation, valeurFonciere := r.valeurFonciere,
    codeDepartement := r.codeDepartement, codeCommune := r.codeCommune,
    typeLocal := r.typeLocal, surfaceReelleBati := r.surfaceReelleBati,
    prix_m2 := p }

/-- `df["prix_m2"] = df["Valeur fonciere"] / df["Surface reelle bati"]`, with
the division-by-zero branch kept visible through `safeDiv`. -/
def dvfComputePrix (rows : List DvfTypedRow) : List DvfPrixRow :=
  rows.filterMap fun r =>
    (safeDiv r.valeurFonciere r.surfaceReelleBati).map (withPrix r)

/-- `dt.to_period("Q")`: quarter number of a month. -/
def quarterOf (m : Nat) : Nat := (m - 1) / 3 + 1

/-- The quarter string, e.g. `"2020Q1"`. -/
def trimestreOf (y m : Nat) : String := toString y ++ "Q" ++ toString (quarterOf m)

/-- `pd.to_datetime(..., errors="coerce")` + `dropna(subset=["date_mutation"])`
+ the derived `annee` and `trimestre` columns. -/
def dvfDates (rows : List DvfPrixRow) : List SilverDvfRow :=
  rows.filterMap fun r =>
    r.dateMutation.map fun dmy =>
      { valeurFonciere := r.valeurFonciere, codeDepartement := r.codeDepartement,
        codeCommune := r.codeCommune, typeLocal := r.typeLocal,
        surfaceReelleBati := r.surfaceReelleBati, prix_m2 := r.prix_m2,
        date_mutation := dmy, annee := dmy.2.2,
        trimestre := trimestreOf dmy.2.2 dmy.2.1 }

/-- `df = df[df["Code departement"].isin(DEPARTEMENTS)]` (a NaN department is
not in the list, hence dropped). -/
def dvfFilterDept (rows : List SilverDvfRow) : List SilverDvfRow :=
  rows.filter fun r =>
    match r.codeDepartement with
    | some d => decide (d ∈ DEPARTEMENTS)
    | none => false

/-- The row-level content of `load_dvf_year_to_df`: the cleaning pipeline that
produces the Silver DVF rows from one year of Bronze rows. -/
def load_dvf_year_to_df (rows : List BronzeDvfRow) : List SilverDvfRow :=
  dvfFilterDept (dvfDates (dvfComputePrix (dvfFilterSurface (dvfDropNaTyped rows))))

/-! ## Silver → Gold aggregation (`transform_gold.py`)

`agg_dvf` and `agg_dpe` consume a dataframe; here a frame is the list of its
column names together with its rows.  The row fields only carry meaning when
the corresponding column name is in `cols`.  Group keys are listed in first
occurrence order (pandas sorts them; no claim depends on row order). -/

/-- The energy classes, `CLASSES = ["A", ..., "G"]`. -/
def CLASSES : List String := ["A", "B", "C", "D", "E", "F", "G"]

/-- Deduplication keeping first occurrences, with an accumulator of the keys
already seen. -/
def dedupSeen (seen : List (String × String)) :
    List (String × String) → List (String × String)
  | [] => []
  | k :: rest =>
    if k ∈ seen then dedupSeen seen rest else k :: dedupSeen (k :: seen) rest

/-- The list of distinct group keys, in first occurrence order. -/
def dedupFirst (l : List (String × String)) : List (String × String) :=
  dedupSeen [] l

/-- A row of the Silver DVF frame as consumed by `agg_dvf`:
`code_departement` (the new partition column), `Code departement` (the legacy
one), `trimestre` and `prix_m2`. -/
structure DvfGoldIn where
  code_departement : Option String
  codeDepartementLegacy : Option String
  trimestre : Option String
  prix_m2 : Option ℚ
deriving DecidableEq, Repr

/-- A DVF frame: column names plus rows. -/
structure DvfFrame where
  cols : List String
  rows : List DvfGoldIn
deriving DecidableEq, Repr

/-- Insertion into a sorted list (used to model the sort underlying
`median`). -/
def insertSorted (a : ℚ) : List ℚ → List ℚ
  | [] => [a]
  | b :: rest => if a ≤ b then a :: b :: rest else b :: insertSorted a rest

/-- Sort a list of rationals in nondecreasing order. -/
def sortQ (l : List ℚ) : List ℚ := l.foldr insertSorted []

/-- The pandas `median`: middle element for odd length, mean of the two middle
elements for even length (groups are never empty when it is applied). -/
def pandasMedian (l : List ℚ) : ℚ :=
  let s := sortQ l
  if l.length % 2 = 1 then s.getD (l.length / 2) 0
  else (s.getD (l.length / 2 - 1) 0 + s.getD (l.length / 2) 0) / 2

/-- One row of the DVF aggregate `grp`. -/
structure DvfAggRow where
  departement : String
  trimestre : String
  nb_ventes : Nat
  prix_m2_median : ℚ
  prix_m2_mean : ℚ
deriving DecidableEq, Repr

/-- The `dropna` + `groupby(["departement", "trimestre"]).agg(...)` +
`round(0)` part of `agg_dvf`, for a given harmonised department accessor. -/
def aggDvfRows (deptOf : DvfGoldIn → Option String) (rows : List DvfGoldIn) :
    List DvfAggRow :=
  let rows2 := rows.filterMap fun r =>
    match deptOf r, r.trimestre, r.prix_m2 with
    | some d, some t, some p => some (d, t, p)
    | _, _, _ => none
  (dedupFirst (rows2.map fun x => (x.1, x.2.1))).map fun k =>
    let vals := rows2.filterMap fun x =>
      if (x.1, x.2.1) = k then some x.2.2 else none
    { departement := k.1
      trimestre := k.2
      nb_ventes := vals.length
      prix_m2_median := round0 (pandasMedian vals)
      prix_m2_mean := round0 (vals.sum / (vals.length : ℚ)) }

/-- The required-column list of `agg_dvf` (after the harmonisation step has
added `departement`). -/
def DVF_NEEDED : List String := ["departement", "trimestre", "prix_m2"]

/-- The `needed`/`missing` check of `agg_dvf` followed by the aggregation. -/
def aggDvfChecked (deptOf : DvfGoldIn → Option String) (df : DvfFrame) :
    Except String (List DvfAggRow) :=
  if (DVF_NEEDED.filter fun c => decide (¬ c ∈ ("departement" :: df.cols))) = []
  then Except.ok (aggDvfRows deptOf df.rows)
  else Except.error "Colonnes DVF manquantes"

/-- `agg_dvf`: harmonise the department column (`code_departement`, else
`Code departement`, else raise), check the needed columns, aggregate. -/
def agg_dvf (df : DvfFrame) : Except String (List DvfAggRow) :=
  if "code_departement" ∈ df.cols then
    aggDvfChecked (fun r => r.code_departement) df
  else if "Code departement" ∈ df.cols then
    aggDvfChecked (fun r => r.codeDepartementLegacy) df
  else Except.error "Colonne departement manquante"

/-- A row of the Silver DPE frame as consumed by `agg_dpe`. -/
structure DpeIn where
  tv016_departement_code : Option String
  trimestre : Option String
  classe_consommation_energie : Option String
deriving DecidableEq, Repr

/-- A DPE frame: column names plus rows. -/
structure DpeFrame where
  cols : List String
  rows : List DpeIn
deriving DecidableEq, Repr

/-- The `dropna` + `astype(str)` + `isin(CLASSES)` filter applied to one row:
`none` when any of the three cells is missing or the class is outside A..G. -/
def dpeRowTriple (r : DpeIn) : Option (String × String × String) :=
  match r.tv016_departement_code, r.trimestre, r.classe_consommation_energie with
  | some d, some t, some c => if c ∈ CLASSES then some (d, t, c) else none
  | _, _, _ => none

/-- The `dropna` + `astype(str)` + `isin(CLASSES)` filter of `agg_dpe`,
yielding (departement, trimestre, classe) triples. -/
def dpeFiltered (rows : List DpeIn) : List (String × String × String) :=
  rows.filterMap dpeRowTriple

/-- The group key of a filtered DPE triple. -/
def keyOf (x : String × String × String) : String × String := (x.1, x.2.1)

/-- The count of one (key, class) cell of the pivot. -/
def countDT (l : List (String × String × String)) (k : String × String)
    (c : String) : Nat :=
  l.countP fun x => decide (keyOf x = k ∧ x.2.2 = c)

/-- The classes that occur in the filtered data: exactly the `classe_X`
columns the pivot produces (pandas sorts them; `CLASSES.filter` preserves the
A..G order). -/
def presentClasses (l : List (String × String × String)) : List String :=
  CLASSES.filter fun c => l.any fun x => decide (x.2.2 = c)

/-- The percentage formula of `agg_dpe`:
`np.where(dpe_total > 0, (count / dpe_total * 100).round(1), 0.0)`. -/
def dpePct (count total : Nat) : ℚ :=
  if 0 < total then round1 ((count : ℚ) / (total : ℚ) * 100) else 0

/-- One row of the DPE pivot: per-class counts (`classe_X`), their sum
`dpe_total` and the percentage columns (`classe_X_pct`), each listed for the
classes present in the data. -/
structure DpePivotRow where
  departement : String
  trimestre : String
  counts : List (String × Nat)
  dpe_total : Nat
  pcts : List (String × ℚ)
deriving DecidableEq, Repr

/-- Build the pivot row of one group key. -/
def mkPivotRow (l : List (String × String × String)) (k : String × String) :
    DpePivotRow :=
  { departement := k.1
    trimestre := k.2
    counts := (presentClasses l).map fun c => (c, countDT l k c)
    dpe_total := ((presentClasses l).map fun c => countDT l k c).sum
    pcts := (presentClasses l).map fun c =>
      (c, dpePct (countDT l k c)
        (((presentClasses l).map fun c2 => countDT l k c2).sum)) }

/-- The required-column list of `agg_dpe`. -/
def DPE_NEEDED : List String :=
  ["tv016_departement_code", "trimestre", "classe_consommation_energie"]

/-- `agg_dpe`: check the needed columns, filter, group, pivot, derive totals
and percentages. -/
def agg_dpe (df : DpeFrame) : Except String (List DpePivotRow) :=
  if (DPE_NEEDED.filter fun c => decide (¬ c ∈ df.cols)) = [] then
    Except.ok ((dedupFirst ((dpeFiltered df.rows).map keyOf)).map
      (mkPivotRow (dpeFiltered df.rows)))
  else Except.error "Colonnes DPE manquantes"

/-- The sum of the percentage columns of a pivot row. -/
def sumPcts (r : DpePivotRow) : ℚ := (r.pcts.map Prod.snd).sum

/-- One Gold row: the DVF aggregate columns, the (possibly null) DPE pivot
columns brought in by the left join, and the derived `annee`. -/
structure GoldRow where
  dvf : DvfAggRow
  dpe : Option DpePivotRow
  annee : String
deriving DecidableEq, Repr

/-- `dvf_agg.merge(dpe_agg, on=["departement", "trimestre"], how="left")`
plus `gold["annee"] = gold["trimestre"].str.slice(0, 4)`: every left row is
kept; matching right rows are attached, a missing match leaves the DPE
columns null. -/
def mergeLeftGold (dvfA : List DvfAggRow) (dpeA : List DpePivotRow) :
    List GoldRow :=
  dvfA.flatMap fun l =>
    match dpeA.filter (fun m =>
        decide (m.departement = l.departement ∧ m.trimestre = l.trimestre)) with
    | [] => [{ dvf := l, dpe := none, annee := l.trimestre.take 4 }]
    | ms => ms.map fun m => { dvf := l, dpe := some m, annee := l.trimestre.take 4 }

/-- The aggregation-and-join core of `build_gold` (steps 2–4); the parquet
write only happens after this succeeds, so an error here means no Gold output
is produced. -/
def build_gold (dvf : DvfFrame) (dpe : DpeFrame) : Except String (List GoldRow) := do
  let a ← agg_dvf dvf
  let b ← agg_dpe dpe
  return mergeLeftGold a b

/-! ## DPE API ingestion (`ingest_dpe_api.py`, class `DPEIngestion`)

A department's remote data is modelled as the list of pages the paginated API
serves in order: each page carries its `results` and whether the response has
a `next` token.  A fetch past the served pages (or a fetch whose HTTP request
ultimately fails after the bounded retries) yields `([], none)`.  Writes to
the object store are modelled by an oracle `writeOk : batch number → Bool`
(`save_batch_to_minio` returning a filename or `None`). -/

/-- The environment one department's ingestion runs against. -/
structure DeptEnv where
  pages : List (List String × Bool)
  writeOk : Nat → Bool

/-- Whether the `while` guard `not max_batches or batch_num <= max_batches`
lets batch `b` run. -/
def maxOk (maxB : Option Nat) (b : Nat) : Bool :=
  match maxB with
  | none => true
  | some m => b ≤ m

/-- The pagination `while` loop of `ingest_dept`, returning
`(total_records, batch_num - 1)` exactly as the script does: an empty page, a
failed write, a missing `next` token or the `max_batches` guard each end the
loop. -/
def ingestLoop (w : Nat → Bool) (maxB : Option Nat) :
    List (List String × Bool) → Nat → Nat → Nat × Nat
  | [], b, t => (t, b - 1)
  | (results, hasNext) :: rest, b, t =>
    if maxOk maxB b then
      if results.isEmpty then (t, b - 1)
      else if w b then
        if hasNext then ingestLoop w maxB rest (b + 1) (t + results.length)
        else (t + results.length, b - 1)
      else (t, b - 1)
    else (t, b - 1)

/-- `ingest_dept`: run the pagination loop from batch 1 with zero records. -/
def ingest_dept (env : DeptEnv) (maxB : Option Nat) : Nat × Nat :=
  ingestLoop env.writeOk maxB env.pages 1 0

/-- `ingest_all`: ingest each configured department in turn and sum the
per-department record and batch counts. -/
def ingest_all (env : String → DeptEnv) (maxB : Option Nat) : Nat × Nat :=
  ((DEPARTEMENTS.map fun d => (ingest_dept (env d) maxB).1).sum,
   (DEPARTEMENTS.map fun d => (ingest_dept (env d) maxB).2).sum)

/-! ## Claims about the Bronze → Silver DVF transform -/

lemma dvfComputePrix_of_nonzero (l : List DvfTypedRow)
    (h : ∀ r ∈ l, r.surfaceReelleBati ≠ 0) :
    dvfComputePrix l =
      l.map fun r => withPrix r (r.valeurFonciere / r.surfaceReelleBati) := by
  induction l with
  | nil => rfl
  | cons a t ih =>
    have ha : a.surfaceReelleBati ≠ 0 := h a (List.mem_cons_self a t)
    have ht := ih fun r hr => h r (List.mem_cons_of_mem a hr)
    simp only [dvfComputePrix, List.filterMap_cons, List.map_cons] at ht ⊢
    rw [safeDiv, if_neg ha]
    simp only [Option.map_some']
    rw [ht]

/-- Claim C3: in the Bronze-to-Silver DVF transform, rows with a missing value
or surface are dropped and non-positive surfaces are filtered out before
`prix_m2` is computed, so the division never sees a zero denominator: on the
output of `dvfFilterSurface`, the explicit `safeDiv` pipeline coincides with
plain division (its `none` branch is unreachable). -/
theorem prix_m2_division_never_zero (rows : List DvfTypedRow) :
    dvfComputePrix (dvfFilterSurface rows) =
      (dvfFilterSurface rows).map
        fun r => withPrix r (r.valeurFonciere / r.surfaceReelleBati) := by
  apply dvfComputePrix_of_nonzero
  intro r hr
  have := (List.mem_filter.mp hr).2
  have hpos : 0 < r.surfaceReelleBati := by simpa using this
  exact ne_of_gt hpos

/-- Claim C2: every Silver DVF row produced by the cleaning pipeline of
`load_dvf_year_to_df` has a strictly positive built surface, and its
`prix_m2` equals `Valeur fonciere / Surface reelle bati` exactly. -/
theorem silver_dvf_surface_pos_and_prix (rows : List BronzeDvfRow)
    (r : SilverDvfRow) (hr : r ∈ load_dvf_year_to_df rows) :
    0 < r.surfaceReelleBati ∧
      r.prix_m2 = r.valeurFonciere / r.surfaceReelleBati := by
  unfold load_dvf_year_to_df at hr
  have hr1 := (List.mem_filter.mp hr).1
  rw [dvfDates, List.mem_filterMap] at hr1
  obtain ⟨p, hp, hpr⟩ := hr1
  rw [Option.map_eq_some'] at hpr
  obtain ⟨dmy, hdmy, hfr⟩ := hpr
  rw [dvfComputePrix, List.mem_filterMap] at hp
  obtain ⟨t, ht, htp⟩ := hp
  rw [Option.map_eq_some'] at htp
  obtain ⟨q, hq, hwp⟩ := htp
  have hpos : 0 < t.surfaceReelleBati := by
    have := (List.mem_filter.mp ht).2
    simpa using this
  have hq' : q = t.valeurFonciere / t.surfaceReelleBati := by
    rw [safeDiv, if_neg (ne_of_gt hpos)] at hq
    exact (Option.some.inj hq).symm
  subst hfr
  subst hwp
  exact ⟨hpos, by simp [withPrix, hq']⟩

/-- A concrete Bronze DVF row used to witness C2. -/
def bronzeDvfEx : BronzeDvfRow :=
  { dateMutation := some (15, 2, 2020), valeurFonciere := some 200000,
    codeDepartement := some "92", codeCommune := none, typeLocal := none,
    surfaceReelleBati := some 100 }

/-- The Silver row the pipeline produces from `bronzeDvfEx`. -/
def silverDvfEx : SilverDvfRow :=
  { valeurFonciere := 200000, codeDepartement := some "92",
    codeCommune := none, typeLocal := none, surfaceReelleBati := 100,
    prix_m2 := 2000, date_mutation := (15, 2, 2020), annee := 2020,
    trimestre := "2020Q1" }

lemma load_dvf_year_to_df_ex : load_dvf_year_to_df [bronzeDvfEx] = [silverDvfEx] := by
  norm_num [load_dvf_year_to_df, dvfFilterDept, dvfDates, dvfComputePrix,
    dvfFilterSurface, dvfDropNaTyped, safeDiv, withPrix, trimestreOf, quarterOf,
    DEPARTEMENTS, bronzeDvfEx, silverDvfEx, List.filterMap_cons, List.filter_cons]
  decide

/-- Witness for C2 at a concrete Bronze row. -/
theorem silver_dvf_surface_pos_and_prix_witness :
    0 < silverDvfEx.surfaceReelleBati ∧
      silverDvfEx.prix_m2 = silverDvfEx.valeurFonciere / silverDvfEx.surfaceReelleBati :=
  silver_dvf_surface_pos_and_prix [bronzeDvfEx] silverDvfEx
    (load_dvf_year_to_df_ex ▸ List.mem_singleton.mpr rfl)

/-! ## Claims about the Silver → Gold DVF aggregation -/

/-- The DVF frame of the spec scenario: three sales at 1000, 2000, 3000 per m²
in department 92, quarter 2020Q1. -/
def dvfScenario : DvfFrame :=
  { cols := ["code_departement", "trimestre", "prix_m2"],
    rows :=
      [{ code_departement := some "92", codeDepartementLegacy := none,
         trimestre := some "2020Q1", prix_m2 := some 1000 },
       { code_departement := some "92", codeDepartementLegacy := none,
         trimestre := some "2020Q1", prix_m2 := some 2000 },
       { code_departement := some "92", codeDepartementLegacy := none,
         trimestre := some "2020Q1", prix_m2 := some 3000 }] }

/-- Claim C6: on DVF rows with `prix_m2` values [1000, 2000, 3000], all for
department "92" and quarter "2020Q1", `agg_dvf` returns one group with
`nb_ventes = 3`, `prix_m2_median = 2000` and `prix_m2_mean = 2000`. -/
theorem agg_dvf_scenario :
    agg_dvf dvfScenario = Except.ok
      [{ departement := "92", trimestre := "2020Q1", nb_ventes := 3,
         prix_m2_median := 2000, prix_m2_mean := 2000 }] := by
  norm_num [agg_dvf, dvfScenario, aggDvfChecked, aggDvfRows, DVF_NEEDED,
    dedupFirst, dedupSeen, pandasMedian, sortQ, insertSorted, round0,
    roundHalfEven, List.filterMap_cons, List.filter_cons]

/-! ## Claims about the Silver → Gold DPE aggregation -/

/-- The DPE frame of the spec scenario: classes [A, A, G] for one key. -/
def dpeScenario : DpeFrame :=
  { cols := ["tv016_departement_code", "trimestre", "classe_consommation_energie"],
    rows :=
      [{ tv016_departement_code := some "92", trimestre := some "2020Q1",
         classe_consommation_energie := some "A" },
       { tv016_departement_code := some "92", trimestre := some "2020Q1",
         classe_consommation_energie := some "A" },
       { tv016_departement_code := some "92", trimestre := some "2020Q1",
         classe_consommation_energie := some "G" }] }

/-- Claim C7: on DPE rows with classes [A, A, G] for one (department, quarter)
key, the pivot of `agg_dpe` returns one row with `classe_A = 2`,
`classe_G = 1`, `dpe_total = 3`, `classe_A_pct = 66.7` (= 667/10) and
`classe_G_pct = 33.3` (= 333/10). -/
theorem agg_dpe_scenario :
    agg_dpe dpeScenario = Except.ok
      [{ departement := "92", trimestre := "2020Q1",
         counts := [("A", 2), ("G", 1)], dpe_total := 3,
         pcts := [("A", 667/10), ("G", 333/10)] }] := by
  have hrow : mkPivotRow [("92", "2020Q1", "A"), ("92", "2020Q1", "A"),
      ("92", "2020Q1", "G")] ("92", "2020Q1") =
      { departement := "92", trimestre := "2020Q1",
        counts := [("A", 2), ("G", 1)], dpe_total := 3,
        pcts := [("A", 667/10), ("G", 333/10)] } := by
    rw [mkPivotRow]
    rw [show presentClasses [("92", "2020Q1", "A"), ("92", "2020Q1", "A"),
      ("92", "2020Q1", "G")] = ["A", "G"] from by decide]
    simp only [List.map_cons, List.map_nil, List.sum_cons, List.sum_nil]
    rw [show countDT [("92", "2020Q1", "A"), ("92", "2020Q1", "A"),
      ("92", "2020Q1", "G")] ("92", "2020Q1") "A" = 2 from by decide]
    rw [show countDT [("92", "2020Q1", "A"), ("92", "2020Q1", "A"),
      ("92", "2020Q1", "G")] ("92", "2020Q1") "G" = 1 from by decide]
    norm_num [dpePct, round1, roundHalfEven]
  rw [agg_dpe,
    if_pos (show (DPE_NEEDED.filter fun c => decide (¬ c ∈ dpeScenario.cols)) = []
      from by decide),
    show dpeFiltered dpeScenario.rows = [("92", "2020Q1", "A"),
      ("92", "2020Q1", "A"), ("92", "2020Q1", "G")] from by decide,
    show dedupFirst ([("92", "2020Q1", "A"), ("92", "2020Q1", "A"),
      ("92", "2020Q1", "G")].map keyOf) = [("92", "2020Q1")] from by decide,
    List.map_cons, List.map_nil, hrow]

/-- Claim C8: a pivot row whose `dpe_total` is 0 has every percentage column
equal to 0 — the `np.where(dpe_total > 0, ..., 0.0)` fallback branch. -/
theorem dpe_zero_total_pcts_zero (l : List (String × String × String))
    (k : String × String) (h : (mkPivotRow l k).dpe_total = 0) :
    ∀ p ∈ (mkPivotRow l k).pcts, p.2 = 0 := by
  intro p hp
  simp only [mkPivotRow] at h hp
  rw [List.mem_map] at hp
  obtain ⟨c, hc, rfl⟩ := hp
  simp only
  rw [h]
  simp [dpePct]

/-- The pivot row at a key absent from the data: total 0, percentage 0. -/
lemma mkPivotRow_zero_ex :
    mkPivotRow [("92", "2020Q1", "A")] ("59", "2020Q1") =
      { departement := "59", trimestre := "2020Q1", counts := [("A", 0)],
        dpe_total := 0, pcts := [("A", 0)] } := by
  rw [mkPivotRow]
  rw [show presentClasses [("92", "2020Q1", "A")] = ["A"] from by decide]
  simp only [List.map_cons, List.map_nil, List.sum_cons, List.sum_nil]
  rw [show countDT [("92", "2020Q1", "A")] ("59", "2020Q1") "A" = 0 from by decide]
  norm_num [dpePct]

/-- Witness for C8 at a concrete zero-total pivot row. -/
theorem dpe_zero_total_pcts_zero_witness :
    ((("A" : String), (0 : ℚ))).2 = 0 :=
  dpe_zero_total_pcts_zero [("92", "2020Q1", "A")] ("59", "2020Q1")
    (by rw [mkPivotRow_zero_ex]) ("A", 0)
    (by rw [mkPivotRow_zero_ex]; exact List.mem_singleton.mpr rfl)

/-! ## Claims about the Gold left join -/

/-- Claim C4: the DVF/DPE combination is a left outer join on
(departement, trimestre): every DVF aggregate row appears in Gold; every Gold
row stems from a DVF aggregate row (so a key present only in the DPE
aggregate produces no Gold row); and a Gold row whose key matches no DPE
aggregate row carries null DPE columns, not fabricated zeros. -/
theorem gold_left_join_semantics (dvfA : List DvfAggRow) (dpeA : List DpePivotRow) :
    (∀ l ∈ dvfA, l ∈ (mergeLeftGold dvfA dpeA).map fun g => g.dvf) ∧
    (∀ g ∈ mergeLeftGold dvfA dpeA,
      g.dvf ∈ dvfA ∧
      ((∀ m ∈ dpeA, ¬(m.departement = g.dvf.departement ∧
          m.trimestre = g.dvf.trimestre)) → g.dpe = none)) := by
  constructor
  · intro l hl
    rw [List.mem_map]
    rcases hms : dpeA.filter (fun m =>
        decide (m.departement = l.departement ∧ m.trimestre = l.trimestre))
      with _ | ⟨m, ms⟩
    · refine ⟨{ dvf := l, dpe := none, annee := l.trimestre.take 4 }, ?_, rfl⟩
      rw [mergeLeftGold, List.mem_flatMap]
      exact ⟨l, hl, by rw [hms]; exact List.mem_singleton.mpr rfl⟩
    · refine ⟨{ dvf := l, dpe := some m, annee := l.trimestre.take 4 }, ?_, rfl⟩
      rw [mergeLeftGold, List.mem_flatMap]
      refine ⟨l, hl, ?_⟩
      rw [hms]
      exact List.mem_map.mpr ⟨m, List.mem_cons_self m ms, rfl⟩
  · intro g hg
    rw [mergeLeftGold, List.mem_flatMap] at hg
    obtain ⟨l, hl, hgin⟩ := hg
    rcases hms : dpeA.filter (fun m =>
        decide (m.departement = l.departement ∧ m.trimestre = l.trimestre))
      with _ | ⟨m, ms⟩ <;> rw [hms] at hgin
    · rw [List.mem_singleton] at hgin
      subst hgin
      exact ⟨hl, fun _ => rfl⟩
    · rw [List.mem_map] at hgin
      obtain ⟨m2, hm2, rfl⟩ := hgin
      have hm2f : m2 ∈ dpeA.filter (fun m =>
          decide (m.departement = l.departement ∧ m.trimestre = l.trimestre)) := by
        rw [hms]; exact hm2
      have hm2p := List.mem_filter.mp hm2f
      refine ⟨hl, ?_⟩
      intro hall
      exact absurd (by simpa using hm2p.2) (by simpa using hall m2 hm2p.1)

/-- A concrete DVF aggregate row used to witness C4. -/
def dvfAggEx : DvfAggRow :=
  { departement := "92", trimestre := "2020Q1", nb_ventes := 1,
    prix_m2_median := 1000, prix_m2_mean := 1000 }

/-- Witness for C4: one DVF row, empty DPE aggregate. -/
theorem gold_left_join_semantics_witness :
    dvfAggEx ∈ (mergeLeftGold [dvfAggEx] []).map fun g => g.dvf :=
  (gold_left_join_semantics [dvfAggEx] []).1 dvfAggEx (List.mem_singleton.mpr rfl)

/-! ## Claims about the fail-fast column checks -/

lemma dvf_needed_missing (cols : List String) (c : String) (hc : c ∈ DVF_NEEDED)
    (hne : c ≠ "departement") (h : c ∉ cols) :
    c ∈ (DVF_NEEDED.filter fun c2 => decide (¬ c2 ∈ ("departement" :: cols))) := by
  refine List.mem_filter.mpr ⟨hc, ?_⟩
  simp only [decide_eq_true_eq]
  intro hmem
  rcases List.mem_cons.mp hmem with h1 | h1
  · exact hne h1
  · exact h h1

lemma aggDvfChecked_error (deptOf : DvfGoldIn → Option String) (df : DvfFrame)
    (h : "trimestre" ∉ df.cols ∨ "prix_m2" ∉ df.cols) :
    aggDvfChecked deptOf df = Except.error "Colonnes DVF manquantes" := by
  have hcond : ¬((DVF_NEEDED.filter fun c =>
      decide (¬ c ∈ ("departement" :: df.cols))) = []) := by
    intro hnil
    rcases h with h | h
    · have := dvf_needed_missing df.cols "trimestre" (by decide) (by decide) h
      rw [hnil] at this
      exact absurd this (List.not_mem_nil _)
    · have := dvf_needed_missing df.cols "prix_m2" (by decide) (by decide) h
      rw [hnil] at this
      exact absurd this (List.not_mem_nil _)
  rw [aggDvfChecked, if_neg hcond]

lemma agg_dvf_error_of_missing (df : DvfFrame)
    (h : ¬("code_departement" ∈ df.cols ∨ "Code departement" ∈ df.cols)
       ∨ "trimestre" ∉ df.cols ∨ "prix_m2" ∉ df.cols) :
    ∃ e, agg_dvf df = Except.error e := by
  rw [agg_dvf]
  by_cases h1 : "code_departement" ∈ df.cols
  · rw [if_pos h1]
    have h2 : "trimestre" ∉ df.cols ∨ "prix_m2" ∉ df.cols := by
      rcases h with h | h | h
      · exact absurd (Or.inl h1) h
      · exact Or.inl h
      · exact Or.inr h
    exact ⟨_, aggDvfChecked_error _ df h2⟩
  · rw [if_neg h1]
    by_cases h2 : "Code departement" ∈ df.cols
    · rw [if_pos h2]
      have h3 : "trimestre" ∉ df.cols ∨ "prix_m2" ∉ df.cols := by
        rcases h with h | h | h
        · exact absurd (Or.inr h2) h
        · exact Or.inl h
        · exact Or.inr h
      exact ⟨_, aggDvfChecked_error _ df h3⟩
    · rw [if_neg h2]
      exact ⟨_, rfl⟩

lemma agg_dpe_error_of_missing (df : DpeFrame)
    (h : "tv016_departement_code" ∉ df.cols ∨ "trimestre" ∉ df.cols ∨
         "classe_consommation_energie" ∉ df.cols) :
    agg_dpe df = Except.error "Colonnes DPE manquantes" := by
  have hcond : ¬((DPE_NEEDED.filter fun c => decide (¬ c ∈ df.cols)) = []) := by
    intro hnil
    have hmem : ∃ c, c ∈ (DPE_NEEDED.filter fun c => decide (¬ c ∈ df.cols)) := by
      rcases h with h | h | h
      · exact ⟨"tv016_departement_code",
          List.mem_filter.mpr ⟨by decide, by simpa using h⟩⟩
      · exact ⟨"trimestre", List.mem_filter.mpr ⟨by decide, by simpa using h⟩⟩
      · exact ⟨"classe_consommation_energie",
          List.mem_filter.mpr ⟨by decide, by simpa using h⟩⟩
    obtain ⟨c, hc⟩ := hmem
    rw [hnil] at hc
    exact absurd hc (List.not_mem_nil _)
  rw [agg_dpe, if_neg hcond]

/-- Claim C5: `build_gold` fails fast on missing required columns: if the DVF
frame lacks a department column (`code_departement` or `Code departement`),
`trimestre` or `prix_m2`, or the DPE frame lacks `tv016_departement_code`,
`trimestre` or `classe_consommation_energie`, the aggregation yields an error
and no Gold rows are produced (the parquet write only happens on success). -/
theorem build_gold_fails_fast_on_missing_columns (dvf : DvfFrame) (dpe : DpeFrame)
    (h : ¬("code_departement" ∈ dvf.cols ∨ "Code departement" ∈ dvf.cols)
       ∨ "trimestre" ∉ dvf.cols ∨ "prix_m2" ∉ dvf.cols
       ∨ "tv016_departement_code" ∉ dpe.cols ∨ "trimestre" ∉ dpe.cols
       ∨ "classe_consommation_energie" ∉ dpe.cols) :
    (build_gold dvf dpe).isOk = false := by
  have hdvf : (¬("code_departement" ∈ dvf.cols ∨ "Code departement" ∈ dvf.cols)
      ∨ "trimestre" ∉ dvf.cols ∨ "prix_m2" ∉ dvf.cols) →
      (build_gold dvf dpe).isOk = false := by
    intro hd
    obtain ⟨e, he⟩ := agg_dvf_error_of_missing dvf hd
    simp [build_gold, he, Bind.bind, Except.bind, Except.isOk, Except.toBool]
  have hdpe : ("tv016_departement_code" ∉ dpe.cols ∨ "trimestre" ∉ dpe.cols ∨
      "classe_consommation_energie" ∉ dpe.cols) →
      (build_gold dvf dpe).isOk = false := by
    intro hd
    have he := agg_dpe_error_of_missing dpe hd
    cases hA : agg_dvf dvf with
    | error e => simp [build_gold, hA, Bind.bind, Except.bind, Except.isOk, Except.toBool]
    | ok a => simp [build_gold, hA, he, Bind.bind, Except.bind, Except.isOk, Except.toBool]
  rcases h with h | h | h | h | h | h
  · exact hdvf (Or.inl h)
  · exact hdvf (Or.inr (Or.inl h))
  · exact hdvf (Or.inr (Or.inr h))
  · exact hdpe (Or.inl h)
  · exact hdpe (Or.inr (Or.inl h))
  · exact hdpe (Or.inr (Or.inr h))

/-- Witness for C5: frames with no columns at all. -/
theorem build_gold_fails_fast_witness :
    (build_gold { cols := [], rows := [] } { cols := [], rows := [] }).isOk = false :=
  build_gold_fails_fast_on_missing_columns
    { cols := [], rows := [] } { cols := [], rows := [] } (by decide)

/-! ## Claims about the DPE ingestion -/

/-- Claim C9: a failed batch write stops the pagination loop of the department
it occurs in, and that department only: the other departments' ingestions are
computed from their own environments alone, `ingest_all` still runs every
configured department, and a department whose first write fails contributes
(0, 0) however many pages it had left. -/
theorem ingest_write_failure_isolated (env env2 : String → DeptEnv) (d : String)
    (maxB : Option Nat) (hagree : ∀ d2, d2 ≠ d → env2 d2 = env d2) :
    (∀ d2, d2 ≠ d → ingest_dept (env2 d2) maxB = ingest_dept (env d2) maxB) ∧
    (ingest_all env2 maxB =
      ((DEPARTEMENTS.map fun d2 => (ingest_dept (env2 d2) maxB).1).sum,
       (DEPARTEMENTS.map fun d2 => (ingest_dept (env2 d2) maxB).2).sum)) ∧
    (∀ (results : List String) (hasNext : Bool)
       (rest : List (List String × Bool)) (w : Nat → Bool),
       results ≠ [] → w 1 = false →
       ingest_dept { pages := (results, hasNext) :: rest, writeOk := w } maxB
         = (0, 0)) := by
  refine ⟨fun d2 hd2 => by rw [hagree d2 hd2], rfl, ?_⟩
  intro results hasNext rest w hres hw
  cases results with
  | nil => exact absurd rfl hres
  | cons a t =>
    rw [ingest_dept]
    show ingestLoop w maxB ((a :: t, hasNext) :: rest) 1 0 = (0, 0)
    rw [ingestLoop]
    cases hmax : maxOk maxB 1 with
    | false => rw [if_neg (by simp [hmax])]
    | true =>
      rw [if_pos (by simp [hmax]), if_neg (by simp), if_neg (by simp [hw])]

/-- Witness for C9: a one-page environment whose first write fails. -/
theorem ingest_write_failure_isolated_witness :
    ingest_dept { pages := [(["rec1"], true)], writeOk := fun _ => false } none
      = (0, 0) :=
  (ingest_write_failure_isolated (fun _ => ⟨[], fun _ => true⟩)
      (fun _ => ⟨[], fun _ => true⟩) "92" none (fun _ _ => rfl)).2.2
    ["rec1"] true [] (fun _ => false) (by simp) rfl

/-! ## Claim C1: the sum of the rounded percentage columns -/

/-- The DPE input of the C1 counterexample: one group with class counts
A..F = 1 each and G = 18 (total 24). -/
def c1Rows : List DpeIn :=
  [{ tv016_departement_code := some "92", trimestre := some "2020Q1",
     classe_consommation_energie := some "A" },
   { tv016_departement_code := some "92", trimestre := some "2020Q1",
     classe_consommation_energie := some "B" },
   { tv016_departement_code := some "92", trimestre := some "2020Q1",
     classe_consommation_energie := some "C" },
   { tv016_departement_code := some "92", trimestre := some "2020Q1",
     classe_consommation_energie := some "D" },
   { tv016_departement_code := some "92", trimestre := some "2020Q1",
     classe_consommation_energie := some "E" },
   { tv016_departement_code := some "92", trimestre := some "2020Q1",
     classe_consommation_energie := some "F" }] ++
  List.replicate 18
    { tv016_departement_code := some "92", trimestre := some "2020Q1",
      classe_consommation_energie := some "G" }

/-- The filtered triples of `c1Rows`. -/
def c1Triples : List (String × String × String) :=
  [("92", "2020Q1", "A"), ("92", "2020Q1", "B"), ("92", "2020Q1", "C"),
   ("92", "2020Q1", "D"), ("92", "2020Q1", "E"), ("92", "2020Q1", "F")] ++
  List.replicate 18 ("92", "2020Q1", "G")

/-- The C1 counterexample frame. -/
def dpeFrameC1 : DpeFrame :=
  { cols := ["tv016_departement_code", "trimestre", "classe_consommation_energie"],
    rows := c1Rows }

/-- The pivot row `agg_dpe` produces for `dpeFrameC1`: each of the six rare
classes rounds 100/24 = 4.1666... up to 4.2, so the percentages sum to
6 · 4.2 + 75 = 100.2. -/
def dpeRowC1 : DpePivotRow :=
  { departement := "92", trimestre := "2020Q1",
    counts := [("A", 1), ("B", 1), ("C", 1), ("D", 1), ("E", 1), ("F", 1), ("G", 18)],
    dpe_total := 24,
    pcts := [("A", 21/5), ("B", 21/5), ("C", 21/5), ("D", 21/5), ("E", 21/5),
             ("F", 21/5), ("G", 75)] }

lemma agg_dpe_c1_eq : agg_dpe dpeFrameC1 = Except.ok [dpeRowC1] := by
  have hrow : mkPivotRow c1Triples ("92", "2020Q1") = dpeRowC1 := by
    rw [mkPivotRow]
    rw [show presentClasses c1Triples = ["A", "B", "C", "D", "E", "F", "G"]
      from by decide]
    simp only [List.map_cons, List.map_nil, List.sum_cons, List.sum_nil]
    rw [show countDT c1Triples ("92", "2020Q1") "A" = 1 from by decide,
        show countDT c1Triples ("92", "2020Q1") "B" = 1 from by decide,
        show countDT c1Triples ("92", "2020Q1") "C" = 1 from by decide,
        show countDT c1Triples ("92", "2020Q1") "D" = 1 from by decide,
        show countDT c1Triples ("92", "2020Q1") "E" = 1 from by decide,
        show countDT c1Triples ("92", "2020Q1") "F" = 1 from by decide,
        show countDT c1Triples ("92", "2020Q1") "G" = 18 from by decide]
    norm_num [dpeRowC1, dpePct, round1, roundHalfEven]
  rw [agg_dpe,
    if_pos (show (DPE_NEEDED.filter fun c => decide (¬ c ∈ dpeFrameC1.cols)) = []
      from by decide),
    show dpeFiltered dpeFrameC1.rows = c1Triples from by decide,
    show dedupFirst (c1Triples.map keyOf) = [("92", "2020Q1")] from by decide,
    List.map_cons, List.map_nil, hrow]

/-- Claim C1 counterexample: `agg_dpe` produces a row with `dpe_total = 24 > 0`
whose seven percentage columns sum to 100.2, outside the claimed 100 ± 0.1. -/
theorem pct_sum_tolerance_counterexample :
    agg_dpe dpeFrameC1 = Except.ok [dpeRowC1] ∧ 0 < dpeRowC1.dpe_total ∧
    sumPcts dpeRowC1 = 501/5 ∧ ¬(|sumPcts dpeRowC1 - 100| ≤ 1/10) :=
  ⟨agg_dpe_c1_eq, by norm_num [dpeRowC1], by norm_num [sumPcts, dpeRowC1],
   by rw [show sumPcts dpeRowC1 - 100 = 1/5 from by norm_num [sumPcts, dpeRowC1],
          abs_of_pos (by norm_num : (0:ℚ) < 1/5)]
      norm_num⟩

lemma mkPivotRow_sum_pcts_close (l : List (String × String × String))
    (k : String × String) (hpos : 0 < (mkPivotRow l k).dpe_total) :
    |sumPcts (mkPivotRow l k) - 100| ≤ 7/20 := by
  simp only [mkPivotRow, sumPcts] at hpos ⊢
  set pres := presentClasses l with hpres
  set T := (pres.map fun c => countDT l k c).sum with hTdef
  have hTpos : 0 < T := hpos
  have hT0 : ((T : ℚ)) ≠ 0 := by exact_mod_cast hTpos.ne'
  rw [List.map_map]
  have h1 : (Prod.snd ∘ fun c => (c, dpePct (countDT l k c) T))
      = fun c => dpePct (countDT l k c) T := rfl
  rw [h1]
  have h2 : (pres.map fun c => dpePct (countDT l k c) T)
      = (pres.map fun c => (countDT l k c : ℚ) / (T : ℚ) * 100).map round1 := by
    rw [List.map_map]
    apply List.map_congr_left
    intro c hc
    simp [dpePct, hTpos, Function.comp]
  rw [h2]
  have hsum : (pres.map fun c => (countDT l k c : ℚ) / (T : ℚ) * 100).sum = 100 := by
    have e1 : (pres.map fun c => (countDT l k c : ℚ) / (T : ℚ) * 100)
        = pres.map fun c => (countDT l k c : ℚ) * (100 / (T : ℚ)) := by
      apply List.map_congr_left
      intro c hc
      ring
    rw [e1, List.sum_map_mul_right]
    have e2 : (pres.map fun c => ((countDT l k c : ℕ) : ℚ)).sum = ((T : ℕ) : ℚ) := by
      rw [hTdef, Nat.cast_list_sum, List.map_map]
      rfl
    rw [e2]
    field_simp
  calc |((pres.map fun c => (countDT l k c : ℚ) / (T : ℚ) * 100).map round1).sum - 100|
      = |((pres.map fun c => (countDT l k c : ℚ) / (T : ℚ) * 100).map round1).sum
          - (pres.map fun c => (countDT l k c : ℚ) / (T : ℚ) * 100).sum| := by
        rw [hsum]
    _ ≤ ((pres.map fun c => (countDT l k c : ℚ) / (T : ℚ) * 100).length : ℚ) / 20 :=
        abs_sum_map_round1_sub _
    _ ≤ 7/20 := by
        rw [List.length_map]
        have hlen : pres.length ≤ 7 := by
          have h7 := List.length_filter_le
            (fun c => l.any fun x => decide (x.2.2 = c)) CLASSES
          simpa [hpres, presentClasses, CLASSES] using h7
        have hlen2 : (pres.length : ℚ) ≤ 7 := by exact_mod_cast hlen
        linarith

/-- Claim C1 (amended): for every row produced by the DPE aggregation with
`dpe_total > 0`, the sum of the rounded percentage columns equals 100 within
0.35 (seven columns, each rounded to 1 decimal, hence each off by at most
0.05); the originally claimed 0.1 tolerance fails, see the counterexample. -/
theorem pct_sum_within_rounding_bound (df : DpeFrame) (out : List DpePivotRow)
    (r : DpePivotRow) (hok : agg_dpe df = Except.ok out) (hr : r ∈ out)
    (hpos : 0 < r.dpe_total) : |sumPcts r - 100| ≤ 7/20 := by
  rw [agg_dpe] at hok
  split_ifs at hok with hcols
  · injection hok with hout
    subst hout
    rw [List.mem_map] at hr
    obtain ⟨k, hk, rfl⟩ := hr
    exact mkPivotRow_sum_pcts_close _ _ hpos

/-- The one-row DPE frame used to witness the amended C1. -/
def dpeFrameC1W : DpeFrame :=
  { cols := ["tv016_departement_code", "trimestre", "classe_consommation_energie"],
    rows := [{ tv016_departement_code := some "34", trimestre := some "2021Q2",
               classe_consommation_energie := some "B" }] }

/-- The pivot row of `dpeFrameC1W`. -/
def dpeRowC1W : DpePivotRow :=
  { departement := "34", trimestre := "2021Q2", counts := [("B", 1)],
    dpe_total := 1, pcts := [("B", 100)] }

lemma agg_dpe_c1w_eq : agg_dpe dpeFrameC1W = Except.ok [dpeRowC1W] := by
  have hrow : mkPivotRow [("34", "2021Q2", "B")] ("34", "2021Q2") = dpeRowC1W := by
    rw [mkPivotRow]
    rw [show presentClasses [("34", "2021Q2", "B")] = ["B"] from by decide]
    simp only [List.map_cons, List.map_nil, List.sum_cons, List.sum_nil]
    rw [show countDT [("34", "2021Q2", "B")] ("34", "2021Q2") "B" = 1 from by decide]
    norm_num [dpeRowC1W, dpePct, round1, roundHalfEven]
  rw [agg_dpe,
    if_pos (show (DPE_NEEDED.filter fun c => decide (¬ c ∈ dpeFrameC1W.cols)) = []
      from by decide),
    show dpeFiltered dpeFrameC1W.rows = [("34", "2021Q2", "B")] from by decide,
    show dedupFirst ([("34", "2021Q2", "B")].map keyOf) = [("34", "2021Q2")]
      from by decide,
    List.map_cons, List.map_nil, hrow]

/-- Witness for the amended C1 at a concrete frame. -/
theorem pct_sum_within_rounding_bound_witness :
    |sumPcts dpeRowC1W - 100| ≤ 7/20 :=
  pct_sum_within_rounding_bound dpeFrameC1W [dpeRowC1W] dpeRowC1W agg_dpe_c1w_eq
    (List.mem_singleton.mpr rfl) (by norm_num [dpeRowC1W])

/-! ## Claim C10: `dpe_total` counts exactly the qualifying rows of the group -/

lemma dpeFiltered_classes (rows : List DpeIn) :
    ∀ x ∈ dpeFiltered rows, x.2.2 ∈ CLASSES := by
  intro x hx
  rw [dpeFiltered, List.mem_filterMap] at hx
  obtain ⟨r, hr, hxr⟩ := hx
  obtain ⟨od, ot, oc⟩ := r
  rcases od with _ | d
  · simp [dpeRowTriple] at hxr
  rcases ot with _ | t0
  · simp [dpeRowTriple] at hxr
  rcases oc with _ | c
  · simp [dpeRowTriple] at hxr
  simp only [dpeRowTriple] at hxr
  split_ifs at hxr with hc
  · injection hxr with h
    subst h
    simpa using hc

lemma mem_of_mem_dedupSeen (l : List (String × String)) :
    ∀ (seen : List (String × String)) (k : String × String),
      k ∈ dedupSeen seen l → k ∈ l := by
  induction l with
  | nil =>
    intro seen k h
    simp [dedupSeen] at h
  | cons a t ih =>
    intro seen k h
    rw [dedupSeen] at h
    by_cases ha : a ∈ seen
    · rw [if_pos ha] at h
      exact List.mem_cons_of_mem a (ih seen k h)
    · rw [if_neg ha] at h
      rcases List.mem_cons.mp h with h1 | h1
      · exact h1 ▸ List.mem_cons_self a t
      · exact List.mem_cons_of_mem a (ih _ k h1)

lemma mem_of_mem_dedupFirst (l : List (String × String)) (k : String × String)
    (h : k ∈ dedupFirst l) : k ∈ l :=
  mem_of_mem_dedupSeen l [] k h

lemma sum_countDT_cons (a : String × String × String)
    (t : List (String × String × String)) (k : String × String) (c : String) :
    countDT (a :: t) k c = countDT t k c + if keyOf a = k ∧ a.2.2 = c then 1 else 0 := by
  simp [countDT, List.countP_cons]

lemma countP_key_eq_sum_over_classes (l : List (String × String × String))
    (k : String × String) (hcl : ∀ x ∈ l, x.2.2 ∈ CLASSES) :
    (CLASSES.map fun c => countDT l k c).sum
      = l.countP fun x => decide (keyOf x = k) := by
  induction l with
  | nil => simp [countDT, CLASSES]
  | cons a t ih =>
    have ha : a.2.2 ∈ CLASSES := hcl a (List.mem_cons_self a t)
    have iht := ih fun x hx => hcl x (List.mem_cons_of_mem a hx)
    rw [List.countP_cons]
    simp only [sum_countDT_cons]
    have hsplit : (CLASSES.map fun c =>
        countDT t k c + if keyOf a = k ∧ a.2.2 = c then 1 else 0).sum
        = (CLASSES.map fun c => countDT t k c).sum
          + (CLASSES.map fun c => if keyOf a = k ∧ a.2.2 = c then 1 else 0).sum := by
      simp only [CLASSES, List.map_cons, List.map_nil, List.sum_cons, List.sum_nil]
      omega
    rw [hsplit, iht]
    by_cases hk : keyOf a = k
    · have hI : (CLASSES.map fun c =>
          if keyOf a = k ∧ a.2.2 = c then 1 else 0).sum = 1 := by
        simp only [hk, true_and]
        have ha' : a.2.2 = "A" ∨ a.2.2 = "B" ∨ a.2.2 = "C" ∨ a.2.2 = "D" ∨
            a.2.2 = "E" ∨ a.2.2 = "F" ∨ a.2.2 = "G" := by
          simpa [CLASSES] using ha
        rcases ha' with h | h | h | h | h | h | h <;> simp [CLASSES, h]
      rw [hI]
      simp [hk]
    · have hI : (CLASSES.map fun c =>
          if keyOf a = k ∧ a.2.2 = c then 1 else 0).sum = 0 := by
        simp [CLASSES, hk]
      rw [hI]
      simp [hk]

lemma countDT_zero_of_not_present (l : List (String × String × String))
    (k : String × String) (c : String)
    (hc : (l.any fun x => decide (x.2.2 = c)) = false) :
    countDT l k c = 0 := by
  rw [countDT, List.countP_eq_zero]
  intro x hx
  simp only [decide_eq_true_eq, not_and]
  intro _ hxc
  have hany : (l.any fun x => decide (x.2.2 = c)) = true :=
    List.any_eq_true.mpr ⟨x, hx, by simp [hxc]⟩
  rw [hc] at hany
  exact Bool.noConfusion hany

lemma sum_map_filter_eq_of_vanish (L : List String) (p : String → Bool)
    (f : String → Nat) (H : ∀ c ∈ L, p c = false → f c = 0) :
    ((L.filter p).map f).sum = (L.map f).sum := by
  induction L with
  | nil => rfl
  | cons a t ih =>
    have iht := ih fun c hc h0 => H c (List.mem_cons_of_mem a hc) h0
    rw [List.filter_cons]
    cases hpa : p a with
    | true => simp [hpa, iht]
    | false =>
      have hfa : f a = 0 := H a (List.mem_cons_self a t) hpa
      simp [hpa, iht, hfa]

lemma dpe_total_eq_countP_key (l : List (String × String × String))
    (k : String × String) (hcl : ∀ x ∈ l, x.2.2 ∈ CLASSES) :
    (mkPivotRow l k).dpe_total = l.countP fun x => decide (keyOf x = k) := by
  show ((presentClasses l).map fun c => countDT l k c).sum = _
  rw [presentClasses]
  rw [sum_map_filter_eq_of_vanish CLASSES _ _
    (fun c _ h0 => countDT_zero_of_not_present l k c h0)]
  exact countP_key_eq_sum_over_classes l k hcl

lemma countP_dpeFiltered_key (rows : List DpeIn) (k : String × String) :
    (dpeFiltered rows).countP (fun x => decide (keyOf x = k)) =
    rows.countP fun x => decide (x.tv016_departement_code = some k.1 ∧
      x.trimestre = some k.2 ∧
      ∃ c ∈ CLASSES, x.classe_consommation_energie = some c) := by
  induction rows with
  | nil => rfl
  | cons a t ih =>
    obtain ⟨od, ot, oc⟩ := a
    rcases od with _ | d
    · simpa [dpeFiltered, dpeRowTriple, List.filterMap_cons, List.countP_cons]
        using ih
    rcases ot with _ | t0
    · simpa [dpeFiltered, dpeRowTriple, List.filterMap_cons, List.countP_cons]
        using ih
    rcases oc with _ | c
    · simpa [dpeFiltered, dpeRowTriple, List.filterMap_cons, List.countP_cons]
        using ih
    by_cases hc : c ∈ CLASSES
    · have hstep : dpeFiltered
          ({ tv016_departement_code := some d, trimestre := some t0,
             classe_consommation_energie := some c } :: t)
          = (d, t0, c) :: dpeFiltered t := by
        simp [dpeFiltered, List.filterMap_cons, dpeRowTriple, hc]
      rw [hstep, List.countP_cons, List.countP_cons, ih]
      congr 1
      exact if_congr (by simp [keyOf, Prod.ext_iff, hc]) rfl rfl
    · have hstep : dpeFiltered
          ({ tv016_departement_code := some d, trimestre := some t0,
             classe_consommation_energie := some c } :: t)
          = dpeFiltered t := by
        simp [dpeFiltered, List.filterMap_cons, dpeRowTriple, hc]
      rw [hstep, List.countP_cons, ih]
      simp [hc]

/-- Claim C10: for every pivot row of `agg_dpe`, `dpe_total` equals exactly the
number of input rows of that (department, quarter) group whose energy class is
one of A..G (rows with missing fields or other class values are excluded
before counting), and consequently every pivot row has `dpe_total ≥ 1`. -/
theorem dpe_total_counts_group_rows (df : DpeFrame) (out : List DpePivotRow)
    (r : DpePivotRow) (hok : agg_dpe df = Except.ok out) (hr : r ∈ out) :
    r.dpe_total = df.rows.countP (fun x =>
      decide (x.tv016_departement_code = some r.departement ∧
              x.trimestre = some r.trimestre ∧
              ∃ c ∈ CLASSES, x.classe_consommation_energie = some c)) ∧
    1 ≤ r.dpe_total := by
  rw [agg_dpe] at hok
  split_ifs at hok with hcols
  injection hok with hout
  subst hout
  rw [List.mem_map] at hr
  obtain ⟨k, hk, rfl⟩ := hr
  have h1 : (mkPivotRow (dpeFiltered df.rows) k).dpe_total
      = (dpeFiltered df.rows).countP fun x => decide (keyOf x = k) :=
    dpe_total_eq_countP_key _ _ (dpeFiltered_classes df.rows)
  constructor
  · show (mkPivotRow (dpeFiltered df.rows) k).dpe_total
      = df.rows.countP fun x =>
        decide (x.tv016_departement_code = some k.1 ∧ x.trimestre = some k.2 ∧
          ∃ c ∈ CLASSES, x.classe_consommation_energie = some c)
    rw [h1, countP_dpeFiltered_key]
  · rw [h1]
    have hk2 : k ∈ (dpeFiltered df.rows).map keyOf :=
      mem_of_mem_dedupFirst _ k hk
    rw [List.mem_map] at hk2
    obtain ⟨x, hx, hxk⟩ := hk2
    have hpos : 0 < (dpeFiltered df.rows).countP fun x => decide (keyOf x = k) :=
      List.countP_pos_iff.mpr ⟨x, hx, by simp [hxk]⟩
    omega

/-- The one-row DPE frame used to witness C10. -/
def dpeFrameC10W : DpeFrame :=
  { cols := ["tv016_departement_code", "trimestre", "classe_consommation_energie"],
    rows := [{ tv016_departement_code := some "59", trimestre := some "2020Q3",
               classe_consommation_energie := some "C" }] }

/-- The pivot row of `dpeFrameC10W`. -/
def dpeRowC10W : DpePivotRow :=
  { departement := "59", trimestre := "2020Q3", counts := [("C", 1)],
    dpe_total := 1, pcts := [("C", 100)] }

lemma agg_dpe_c10w_eq : agg_dpe dpeFrameC10W = Except.ok [dpeRowC10W] := by
  have hrow : mkPivotRow [("59", "2020Q3", "C")] ("59", "2020Q3") = dpeRowC10W := by
    rw [mkPivotRow]
    rw [show presentClasses [("59", "2020Q3", "C")] = ["C"] from by decide]
    simp only [List.map_cons, List.map_nil, List.sum_cons, List.sum_nil]
    rw [show countDT [("59", "2020Q3", "C")] ("59", "2020Q3") "C" = 1 from by decide]
    norm_num [dpeRowC10W, dpePct, round1, roundHalfEven]
  rw [agg_dpe,
    if_pos (show (DPE_NEEDED.filter fun c => decide (¬ c ∈ dpeFrameC10W.cols)) = []
      from by decide),
    show dpeFiltered dpeFrameC10W.rows = [("59", "2020Q3", "C")] from by decide,
    show dedupFirst ([("59", "2020Q3", "C")].map keyOf) = [("59", "2020Q3")]
      from by decide,
    List.map_cons, List.map_nil, hrow]

/-- Witness for C10 at a concrete frame. -/
theorem dpe_total_counts_group_rows_witness :
    dpeRowC10W.dpe_total = dpeFrameC10W.rows.countP (fun x =>
      decide (x.tv016_departement_code = some dpeRowC10W.departement ∧
              x.trimestre = some dpeRowC10W.trimestre ∧
              ∃ c ∈ CLASSES, x.classe_consommation_energie = some c)) ∧
    1 ≤ dpeRowC10W.dpe_total :=
  dpe_total_counts_group_rows dpeFrameC10W [dpeRowC10W] dpeRowC10W agg_dpe_c10w_eq
    (List.mem_singleton.mpr rfl)
